import Mathlib

/-!
Shallow embedding of `src/platform/graphics/render-pass.js` of the playCanvasEngine
repository: the `ColorAttachmentOps`, `DepthStencilAttachmentOps` and `RenderPass`
classes, together with the collaborator data they read (a render target, color buffers
and the graphics device), and theorems about `init`, the `setClear*` mutators and
`render()`.

JS `undefined` versus `null` on the `renderTarget` field is modelled as
`Option (Option RenderTarget)`: `none` is `undefined` (the field was never assigned),
`some none` is `null` (the explicit default-framebuffer marker), `some (some t)` is a
concrete target. Numeric values carry no arithmetic beyond `Math.max`, so they are
modelled as `Int` (sample counts) and `ℚ` (clear values).
-/

namespace PlayCanvas

/-- Modelled from the spec: the engine color type (`core/math/color.js` is not part of
this subsystem). Four channels; only construction, comparison and `copy` are used
here. -/
structure Color where
  r : ℚ
  g : ℚ
  b : ℚ
  a : ℚ
deriving Repr, DecidableEq

/-- Modelled from the spec: `Color.copy` performs a field-wise copy of the source color
into the destination, so the resulting value is exactly the source color. -/
def Color.copy (_dst src : Color) : Color :=
  { r := src.r, g := src.g, b := src.b, a := src.a }

/-- Per-color-attachment operation descriptor, with the field defaults of the source
class `ColorAttachmentOps`. -/
structure ColorAttachmentOps where
  clearValue : Color := { r := 0, g := 0, b := 0, a := 1 }
  clear : Bool := false
  store : Bool := false
  resolve : Bool := true
  mipmaps : Bool := false
deriving Repr, DecidableEq

/-- Depth/stencil operation descriptor, with the field defaults of the source class
`DepthStencilAttachmentOps`. -/
structure DepthStencilAttachmentOps where
  clearDepthValue : ℚ := 1
  clearStencilValue : ℚ := 0
  clearDepth : Bool := false
  clearStencil : Bool := false
  storeDepth : Bool := false
  storeStencil : Bool := false
deriving Repr, DecidableEq

/-- Modelled from the spec: a color buffer of a render target exposes at least a
mipmap-capability flag (`render-target.js` is not part of this subsystem). -/
structure ColorBuffer where
  mipmaps : Bool := false
deriving Repr, DecidableEq

/-- Modelled from the spec: the render-target collaborator exposes a sample count and
an ordered list of color buffers. `colorBuffers = none` models a target on which the
`_colorBuffers` accessor is `undefined`. -/
structure RenderTarget where
  samples : Int := 1
  colorBuffers : Option (List ColorBuffer) := some [{}]
deriving Repr, DecidableEq

/-- Modelled from the spec: the graphics-device collaborator exposes a default sample
count and a monotonically incrementing render-pass counter. Its begin-pass and
end-pass operations are recorded as events by `RenderPass.render`. -/
structure Device where
  samples : Int := 1
  renderPassIndex : Nat := 0
deriving Repr, DecidableEq

/-- State of a `RenderPass`. The callback fields `before`, `execute` and `after` record
only presence (`true` when the JS field holds a function), since the pass treats the
callbacks as opaque. Debug markers and debug-only logging are peripheral and omitted. -/
structure RenderPass where
  device : Device
  name : String := ""
  renderTarget : Option (Option RenderTarget) := none
  samples : Int := 0
  colorArrayOps : List ColorAttachmentOps := []
  depthStencilOps : Option DepthStencilAttachmentOps := none
  requiresCubemaps : Bool := true
  fullSizeClearRect : Bool := true
  execute : Bool := false
  before : Bool := false
  after : Bool := false
deriving Repr, DecidableEq

/-- The constructor `new RenderPass(graphicsDevice, execute)`: binds the device and the
optional execute callback; every other field keeps its class-field default. -/
def RenderPass.new (graphicsDevice : Device) (execute : Bool) : RenderPass :=
  { device := graphicsDevice, execute := execute }

/-- The `colorOps` getter: `this.colorArrayOps[0]`, which is `undefined` when the array
is empty. -/
def RenderPass.colorOps (p : RenderPass) : Option ColorAttachmentOps :=
  p.colorArrayOps.get? 0

/-- The loop bound of `init`: `renderTarget ? renderTarget._colorBuffers?.length : 1`.
When `_colorBuffers` is `undefined` the JS bound is `undefined` and the comparison
`i < undefined` is false, so the loop body never runs; that case is `0` here. -/
def numColorOps (renderTarget : Option RenderTarget) : Nat :=
  match renderTarget with
  | some t =>
    match t.colorBuffers with
    | some cbs => cbs.length
    | none => 0
  | none => 1

/-- The body of the `init` loop at index `i`: a fresh `ColorAttachmentOps`, with
`store := true, resolve := false` applied when `samples === 1`, and `mipmaps := true`
when `this.renderTarget?._colorBuffers?.[i].mipmaps` is truthy. Inside the loop `i` is
always within bounds of the color-buffer list, so the out-of-bounds default of `getD`
is never reached. -/
def mkInitColorOp (samples : Int) (renderTarget : Option RenderTarget) (i : Nat) :
    ColorAttachmentOps :=
  let colorOps : ColorAttachmentOps := {}
  let colorOps :=
    if samples = 1 then { colorOps with store := true, resolve := false } else colorOps
  let mip :=
    match renderTarget with
    | some t =>
      match t.colorBuffers with
      | some cbs => (cbs.getD i {}).mipmaps
      | none => false
    | none => false
  if mip then { colorOps with mipmaps := true } else colorOps

/-- `RenderPass.init(renderTarget)`: stores `renderTarget || null`, computes
`samples = Math.max(this.renderTarget ? this.renderTarget.samples : this.device.samples, 1)`,
allocates a fresh `DepthStencilAttachmentOps`, and assigns a fresh `ColorAttachmentOps`
at each index in `[0, numColorOps)` of the existing `colorArrayOps` array. JS index
assignment never shrinks an array, so entries beyond the written prefix stay in
place. -/
def RenderPass.init (p : RenderPass) (renderTarget : Option RenderTarget) : RenderPass :=
  let samples : Int :=
    max
      (match renderTarget with
      | some t => t.samples
      | none => p.device.samples) 1
  { p with
    renderTarget := some renderTarget,
    samples := samples,
    depthStencilOps := some {},
    colorArrayOps :=
      (List.range (numColorOps renderTarget)).map (mkInitColorOp samples renderTarget)
        ++ p.colorArrayOps.drop (numColorOps renderTarget) }

/-- `RenderPass.setClearColor(color)`: for every entry of `colorArrayOps`, copy the
color into `clearValue` and set `clear = true`. -/
def RenderPass.setClearColor (p : RenderPass) (color : Color) : RenderPass :=
  { p with
    colorArrayOps := p.colorArrayOps.map fun colorOps =>
      { colorOps with clearValue := colorOps.clearValue.copy color, clear := true } }

/-- `RenderPass.setClearDepth(depthValue)`: sets `clearDepthValue` and
`clearDepth = true` on `depthStencilOps`. Before `init` the JS field is `undefined` and
the assignment would throw; here the `none` state is left unchanged, and every theorem
about this mutator assumes an initialized pass. -/
def RenderPass.setClearDepth (p : RenderPass) (depthValue : ℚ) : RenderPass :=
  { p with
    depthStencilOps := p.depthStencilOps.map fun dso =>
      { dso with clearDepthValue := depthValue, clearDepth := true } }

/-- `RenderPass.setClearStencil(stencilValue)`: sets `clearStencilValue` and
`clearStencil = true` on `depthStencilOps`, with the same remark about the
uninitialized state as `setClearDepth`. -/
def RenderPass.setClearStencil (p : RenderPass) (stencilValue : ℚ) : RenderPass :=
  { p with
    depthStencilOps := p.depthStencilOps.map fun dso =>
      { dso with clearStencilValue := stencilValue, clearStencil := true } }

/-- Observable calls made by `render()` into the device and into the user callbacks, in
source order: `before?.()`, `device.startPass(this)`, `execute?.()`,
`device.endPass(this)`, `after?.()`. -/
inductive RenderEvent where
  | beforeCall
  | startPass
  | executeCall
  | endPass
  | afterCall
deriving Repr, DecidableEq

/-- Whether `render()` performs a given call: each callback when present, and
start-pass / end-pass exactly when `realPass`, that is
`this.renderTarget !== undefined`. -/
def RenderPass.emits (p : RenderPass) : RenderEvent → Bool
  | RenderEvent.beforeCall => p.before
  | RenderEvent.startPass => p.renderTarget.isSome
  | RenderEvent.executeCall => p.execute
  | RenderEvent.endPass => p.renderTarget.isSome
  | RenderEvent.afterCall => p.after

/-- `RenderPass.render()`: `before?.()` → (`device.startPass` if `realPass`) →
`execute?.()` → (`device.endPass` if `realPass`) → `after?.()`, then
`device.renderPassIndex++`. Returns the updated pass together with the sequence of
calls it performed. -/
def RenderPass.render (p : RenderPass) : RenderPass × List RenderEvent :=
  let realPass := p.renderTarget.isSome
  let events :=
    (if p.before then [RenderEvent.beforeCall] else [])
      ++ (if realPass then [RenderEvent.startPass] else [])
      ++ (if p.execute then [RenderEvent.executeCall] else [])
      ++ (if realPass then [RenderEvent.endPass] else [])
      ++ (if p.after then [RenderEvent.afterCall] else [])
  ({ p with
      device := { p.device with renderPassIndex := p.device.renderPassIndex + 1 } },
    events)

/-- The all-defaults depth/stencil descriptor, as freshly allocated by `init`. -/
def defaultDepthStencilOps : DepthStencilAttachmentOps := {}

/-- A concrete initialized pass used by witnesses: a fresh pass on a default device,
initialized against the default framebuffer. -/
def samplePass : RenderPass := (RenderPass.new {} false).init none

/-- A concrete multisampled render target with two color buffers, used by witnesses. -/
def mrtTarget : RenderTarget := { samples := 4, colorBuffers := some [{}, {}] }

/-- A concrete pass initialized against `mrtTarget`, used by witnesses. -/
def mrtPass : RenderPass := (RenderPass.new {} false).init (some mrtTarget)

/-- Opaque red, used by witnesses. -/
def red : Color := { r := 1, g := 0, b := 0, a := 1 }

/-- Opaque blue, used by witnesses. -/
def blue : Color := { r := 0, g := 0, b := 1, a := 1 }

/-- The store/resolve outcome of the `init` loop body: the single-sample rule forces
`store = true, resolve = false`, and any other sample count leaves the defaults
`store = false, resolve = true` (the `mipmaps` branch touches neither field). -/
lemma mkInitColorOp_store_resolve (samples : Int) (rt : Option RenderTarget) (i : Nat) :
    (samples = 1 →
      (mkInitColorOp samples rt i).store = true ∧
        (mkInitColorOp samples rt i).resolve = false) ∧
    (samples ≠ 1 →
      (mkInitColorOp samples rt i).resolve = true ∧
        (mkInitColorOp samples rt i).store = false) := by
  constructor
  · intro h
    subst h
    simp [mkInitColorOp]
    constructor <;> split <;> rfl
  · intro h
    simp [mkInitColorOp, if_neg h]
    constructor <;> split <;> rfl

/-- Claim C1: after `init`, every `ColorAttachmentOps` allocated by that call (the
entries at indices `[0, numColorOps)`, i.e. the `take numColorOps` prefix of
`colorArrayOps`) obeys the single-sample rule: when the computed sample count is 1 it
has `store = true` and `resolve = false`; when the sample count exceeds 1 its
`resolve` keeps the default `true` and `store` is not forced (stays `false`).
Moreover, on a pass whose `colorArrayOps` was empty before `init` (first
initialization, the documented lifecycle), this covers every entry of
`colorArrayOps`. -/
theorem init_single_sample_rule (p : RenderPass) (renderTarget : Option RenderTarget) :
    ((p.init renderTarget).samples = 1 →
      ∀ colorOps ∈ ((p.init renderTarget).colorArrayOps).take (numColorOps renderTarget),
        colorOps.store = true ∧ colorOps.resolve = false) ∧
    (1 < (p.init renderTarget).samples →
      ∀ colorOps ∈ ((p.init renderTarget).colorArrayOps).take (numColorOps renderTarget),
        colorOps.resolve = true ∧ colorOps.store = false) ∧
    (p.colorArrayOps = [] →
      ((p.init renderTarget).samples = 1 →
        ∀ colorOps ∈ (p.init renderTarget).colorArrayOps,
          colorOps.store = true ∧ colorOps.resolve = false) ∧
      (1 < (p.init renderTarget).samples →
        ∀ colorOps ∈ (p.init renderTarget).colorArrayOps,
          colorOps.resolve = true ∧ colorOps.store = false)) := by
  have h1 : (p.init renderTarget).samples = 1 →
      ∀ colorOps ∈ ((p.init renderTarget).colorArrayOps).take (numColorOps renderTarget),
        colorOps.store = true ∧ colorOps.resolve = false := by
    intro hs ops hmem
    simp only [RenderPass.init] at hmem
    rw [List.take_left' (by simp)] at hmem
    simp only [List.mem_map, List.mem_range] at hmem
    obtain ⟨i, hi, rfl⟩ := hmem
    exact (mkInitColorOp_store_resolve _ renderTarget i).1 hs
  have h2 : 1 < (p.init renderTarget).samples →
      ∀ colorOps ∈ ((p.init renderTarget).colorArrayOps).take (numColorOps renderTarget),
        colorOps.resolve = true ∧ colorOps.store = false := by
    intro hs ops hmem
    simp only [RenderPass.init] at hmem
    rw [List.take_left' (by simp)] at hmem
    simp only [List.mem_map, List.mem_range] at hmem
    obtain ⟨i, hi, rfl⟩ := hmem
    exact (mkInitColorOp_store_resolve _ renderTarget i).2 (ne_of_gt hs)
  have hfresh : p.colorArrayOps = [] → ∀ ops,
      ops ∈ (p.init renderTarget).colorArrayOps →
      ops ∈ ((p.init renderTarget).colorArrayOps).take (numColorOps renderTarget) := by
    intro h ops hmem
    simp only [RenderPass.init, h] at hmem ⊢
    rw [List.take_left' (by simp)]
    simpa using hmem
  exact ⟨h1, h2, fun h =>
    ⟨fun hs ops hmem => h1 hs ops (hfresh h ops hmem),
      fun hs ops hmem => h2 hs ops (hfresh h ops hmem)⟩⟩

/-- Witness for C1: on a fresh pass initialized against the default framebuffer of a
single-sampled device, the first (and only) allocated entry has `store = true` and
`resolve = false`. -/
theorem init_single_sample_rule_witness :
    (((RenderPass.new {} false).init none).colorArrayOps.take (numColorOps none)).getD 0 {}
        ∈ (((RenderPass.new {} false).init none).colorArrayOps).take (numColorOps none) ∧
    ((((RenderPass.new {} false).init none).colorArrayOps.take (numColorOps none)).getD 0 {}).store
        = true ∧
    ((((RenderPass.new {} false).init none).colorArrayOps.take (numColorOps none)).getD 0 {}).resolve
        = false :=
  ⟨by decide,
    (init_single_sample_rule (RenderPass.new {} false) none).1 (by decide) _ (by decide)⟩

/-- Claim C2: each `render()` call performs its calls in the fixed order
before → (start-pass if the render target is not `undefined`) → execute →
(end-pass likewise) → after, each callback only when present, and increments the
render-pass counter of the device by exactly one, for every combination of present
callbacks. -/
theorem render_order_and_counter (p : RenderPass) :
    (p.render).1.device.renderPassIndex = p.device.renderPassIndex + 1 ∧
    (p.render).2 =
      [RenderEvent.beforeCall, RenderEvent.startPass, RenderEvent.executeCall,
        RenderEvent.endPass, RenderEvent.afterCall].filter p.emits := by
  refine ⟨rfl, ?_⟩
  cases hb : p.before <;> cases he : p.execute <;> cases ha : p.after <;>
    cases hr : p.renderTarget <;>
      simp [RenderPass.render, RenderPass.emits, List.filter, hb, he, ha, hr]

/-- Claim C3: `render()` on a pass whose `renderTarget` is still `undefined` (never
initialized) performs no start-pass and no end-pass call, runs exactly the present
callbacks in order, and leaves `colorArrayOps` and `depthStencilOps` unchanged; the
embedding is a total function, matching the absence of a throw on this path. -/
theorem render_without_init (p : RenderPass) (h : p.renderTarget = none) :
    RenderEvent.startPass ∉ (p.render).2 ∧
    RenderEvent.endPass ∉ (p.render).2 ∧
    (p.render).2 =
      [RenderEvent.beforeCall, RenderEvent.executeCall, RenderEvent.afterCall].filter
        p.emits ∧
    (p.render).1.colorArrayOps = p.colorArrayOps ∧
    (p.render).1.depthStencilOps = p.depthStencilOps := by
  refine ⟨?_, ?_, ?_, rfl, rfl⟩ <;>
    cases hb : p.before <;> cases he : p.execute <;> cases ha : p.after <;>
      simp [RenderPass.render, RenderPass.emits, List.filter, hb, he, ha, h]

/-- Witness for C3: a freshly constructed pass with only an execute callback. -/
theorem render_without_init_witness :
    RenderEvent.startPass ∉ ((RenderPass.new {} true).render).2 ∧
    RenderEvent.endPass ∉ ((RenderPass.new {} true).render).2 ∧
    ((RenderPass.new {} true).render).2 =
      [RenderEvent.beforeCall, RenderEvent.executeCall, RenderEvent.afterCall].filter
        (RenderPass.new {} true).emits ∧
    ((RenderPass.new {} true).render).1.colorArrayOps =
      (RenderPass.new {} true).colorArrayOps ∧
    ((RenderPass.new {} true).render).1.depthStencilOps =
      (RenderPass.new {} true).depthStencilOps :=
  render_without_init (RenderPass.new {} true) rfl

/-- Claim C4: `setClearColor` keeps the attachment count and sets `clear = true` and
`clearValue = color` on every entry, and a second call with another color overwrites
every entry uniformly. -/
theorem setClearColor_uniform (p : RenderPass) (color c2 : Color) :
    (p.setClearColor color).colorArrayOps.length = p.colorArrayOps.length ∧
    (∀ colorOps ∈ (p.setClearColor color).colorArrayOps,
      colorOps.clear = true ∧ colorOps.clearValue = color) ∧
    ((p.setClearColor color).setClearColor c2).colorArrayOps.length
      = p.colorArrayOps.length ∧
    (∀ colorOps ∈ ((p.setClearColor color).setClearColor c2).colorArrayOps,
      colorOps.clear = true ∧ colorOps.clearValue = c2) := by
  refine ⟨by simp [RenderPass.setClearColor], ?_, by simp [RenderPass.setClearColor], ?_⟩
  · intro ops hmem
    simp only [RenderPass.setClearColor, List.mem_map] at hmem
    obtain ⟨o, _, rfl⟩ := hmem
    exact ⟨rfl, rfl⟩
  · intro ops hmem
    simp only [RenderPass.setClearColor, List.mem_map] at hmem
    obtain ⟨o, _, rfl⟩ := hmem
    exact ⟨rfl, rfl⟩

/-- Witness for C4: on a two-attachment pass, after `setClearColor red` the first entry
is cleared to red, and after a further `setClearColor blue` it is cleared to blue. -/
theorem setClearColor_uniform_witness :
    (mrtPass.setClearColor red).colorArrayOps.length = mrtPass.colorArrayOps.length ∧
    ((mrtPass.setClearColor red).colorArrayOps.getD 0 {}).clear = true ∧
    ((mrtPass.setClearColor red).colorArrayOps.getD 0 {}).clearValue = red ∧
    (((mrtPass.setClearColor red).setClearColor blue).colorArrayOps.getD 0 {}).clearValue
      = blue :=
  ⟨(setClearColor_uniform mrtPass red blue).1,
    ((setClearColor_uniform mrtPass red blue).2.1 _ (by decide)).1,
    ((setClearColor_uniform mrtPass red blue).2.1 _ (by decide)).2,
    ((setClearColor_uniform mrtPass red blue).2.2.2 _ (by decide)).2⟩

/-- Claim C5: after `init(renderTarget)` the `samples` field equals
`max(target.samples if a target was supplied, else device.samples, 1)`, and in
particular is at least 1 (never zero) on every initialized pass. -/
theorem init_samples_value (p : RenderPass) (renderTarget : Option RenderTarget) :
    (p.init renderTarget).samples =
      max
        (match renderTarget with
        | some t => t.samples
        | none => p.device.samples) 1 ∧
    1 ≤ (p.init renderTarget).samples :=
  ⟨rfl, le_max_right _ _⟩

/-- Claim C6: on a freshly constructed pass, `init` with no target yields exactly one
`ColorAttachmentOps`, a freshly allocated all-defaults `DepthStencilAttachmentOps`, and
stores the explicit `null` default-framebuffer marker (`some none`). -/
theorem init_default_framebuffer (device : Device) (execute : Bool) :
    ((RenderPass.new device execute).init none).colorArrayOps.length = 1 ∧
    ((RenderPass.new device execute).init none).depthStencilOps = some {} ∧
    ((RenderPass.new device execute).init none).renderTarget = some none := by
  refine ⟨?_, rfl, rfl⟩
  simp [RenderPass.new, RenderPass.init, numColorOps]

/-- Claim C7: `init` with a concrete render target that lacks the color-buffer accessor
completes (the embedding is total, as the JS loop guard `i < undefined` is simply
false), allocates zero `ColorAttachmentOps` (the array is left exactly as it was), and
still allocates `depthStencilOps`. -/
theorem init_missing_color_buffers (p : RenderPass) (t : RenderTarget)
    (h : t.colorBuffers = none) :
    (p.init (some t)).colorArrayOps = p.colorArrayOps ∧
    (p.init (some t)).depthStencilOps = some {} ∧
    (p.init (some t)).renderTarget = some (some t) := by
  refine ⟨?_, rfl, rfl⟩
  simp [RenderPass.init, numColorOps, h]

/-- Witness for C7: a fresh pass initialized with a 4-sample target that has no
color-buffer list keeps its empty `colorArrayOps`. -/
theorem init_missing_color_buffers_witness :
    ((RenderPass.new {} false).init (some { samples := 4, colorBuffers := none })).colorArrayOps
      = (RenderPass.new {} false).colorArrayOps ∧
    ((RenderPass.new {} false).init
        (some { samples := 4, colorBuffers := none })).depthStencilOps = some {} ∧
    ((RenderPass.new {} false).init
        (some { samples := 4, colorBuffers := none })).renderTarget
      = some (some { samples := 4, colorBuffers := none }) :=
  init_missing_color_buffers (RenderPass.new {} false)
    { samples := 4, colorBuffers := none } rfl

/-- Claim C8: on an initialized pass, `setClearDepth v` is exactly the update of
`clearDepthValue` and `clearDepth` on `depthStencilOps` (all other descriptor fields
and all other pass state, `colorArrayOps` included, unchanged), and `setClearStencil w`
is exactly the update of `clearStencilValue` and `clearStencil`. -/
theorem setClearDepth_stencil_frame (p : RenderPass) (v w : ℚ)
    (dso : DepthStencilAttachmentOps) (h : p.depthStencilOps = some dso) :
    p.setClearDepth v =
      { p with
        depthStencilOps := some ({ dso with clearDepthValue := v, clearDepth := true }) } ∧
    p.setClearStencil w =
      { p with
        depthStencilOps := some ({ dso with clearStencilValue := w, clearStencil := true }) } := by
  constructor <;> simp [RenderPass.setClearDepth, RenderPass.setClearStencil, h]

/-- Witness for C8: the concrete initialized pass `samplePass`. -/
theorem setClearDepth_stencil_frame_witness :
    samplePass.setClearDepth 2 =
      { samplePass with
        depthStencilOps :=
          some ({ defaultDepthStencilOps with clearDepthValue := 2, clearDepth := true }) } ∧
    samplePass.setClearStencil 3 =
      { samplePass with
        depthStencilOps :=
          some ({ defaultDepthStencilOps with clearStencilValue := 3, clearStencil := true }) } :=
  setClearDepth_stencil_frame samplePass 2 3 defaultDepthStencilOps rfl

/-- Claim C9: on an initialized pass, `setClearColor`, `setClearDepth` and
`setClearStencil` are idempotent and pairwise commutative. -/
theorem clear_mutators_idempotent_commute (p : RenderPass) (c : Color) (v w : ℚ)
    (h : p.depthStencilOps.isSome = true) :
    (p.setClearColor c).setClearColor c = p.setClearColor c ∧
    (p.setClearDepth v).setClearDepth v = p.setClearDepth v ∧
    (p.setClearStencil w).setClearStencil w = p.setClearStencil w ∧
    (p.setClearColor c).setClearDepth v = (p.setClearDepth v).setClearColor c ∧
    (p.setClearColor c).setClearStencil w = (p.setClearStencil w).setClearColor c ∧
    (p.setClearDepth v).setClearStencil w = (p.setClearStencil w).setClearDepth v := by
  obtain ⟨dso, hd⟩ := Option.isSome_iff_exists.mp h
  refine ⟨?_, ?_, ?_, ?_, ?_, ?_⟩ <;>
    simp [RenderPass.setClearColor, RenderPass.setClearDepth, RenderPass.setClearStencil,
      Color.copy, hd, List.map_map, Function.comp]

/-- Witness for C9: the concrete initialized pass `samplePass` with red, depth 2,
stencil 3. -/
theorem clear_mutators_idempotent_commute_witness :
    ((samplePass.setClearColor red).setClearColor red = samplePass.setClearColor red) ∧
    ((samplePass.setClearDepth 2).setClearDepth 2 = samplePass.setClearDepth 2) ∧
    ((samplePass.setClearStencil 3).setClearStencil 3 = samplePass.setClearStencil 3) ∧
    ((samplePass.setClearColor red).setClearDepth 2 =
      (samplePass.setClearDepth 2).setClearColor red) ∧
    ((samplePass.setClearColor red).setClearStencil 3 =
      (samplePass.setClearStencil 3).setClearColor red) ∧
    ((samplePass.setClearDepth 2).setClearStencil 3 =
      (samplePass.setClearStencil 3).setClearDepth 2) :=
  clear_mutators_idempotent_commute samplePass red 2 3 rfl

/-- Claim C10: an `init` call never shrinks `colorArrayOps`, and every entry at an
index at or beyond the written prefix `[0, numColorOps)` is exactly the entry the array
held there before the call — so a second `init` against a target with fewer color
buffers leaves the stale descriptors of the earlier `init` in place beyond the new
count. -/
theorem init_never_shrinks_colorArrayOps (p : RenderPass)
    (renderTarget : Option RenderTarget) (i : Nat) :
    p.colorArrayOps.length ≤ (p.init renderTarget).colorArrayOps.length ∧
    ((p.init renderTarget).colorArrayOps)[numColorOps renderTarget + i]? =
      p.colorArrayOps[numColorOps renderTarget + i]? := by
  constructor
  · simp [RenderPass.init]
    omega
  · simp only [RenderPass.init]
    rw [List.getElem?_append_right (by simp)]
    simp [List.getElem?_drop]

end PlayCanvas
